import Mathlib

set_option maxHeartbeats 1000000
set_option maxRecDepth 8000

/-!
Shallow embedding of the brigade-conformance service of this repository
(route file `src/routes/brigadas.js`).  The conformance evaluator is the
handler of GET `/api/brigadas/:id/checklist-conformacion`; the role
assignment operation is POST `/api/brigadas/:id/asignar-rol`; brigade
creation is POST `/api/brigadas/conformar`.

Conventions of the embedding:
* Supabase query results `{ data, error }` are modelled by `Option`:
  `none` stands for a failed read (data = null) and also for a
  `.single()` call that matched no row.  Which reads fail is injected
  through a `Failures` record, mirroring the fact that the JS code
  destructures only `data` for most reads.
* JS truthiness on the `completado` fields (which can be `null` when a
  role read failed) is modelled by `Bool`, conflating `null` and
  `false`; every use of these fields in the source is a truthiness
  test, so the conflation is observation-equivalent.
* Wall-clock values (`new Date()`) are modelled by a `Nat` tick passed
  to the handlers; the locale-formatted observation string is rendered
  from that tick.
-/

namespace BrigadaIfn

/-- Row of the `brigada_brigadistas` table (one role assignment). -/
structure RoleRow where
  brigada_id : String
  usuario_id : String
  rol_en_brigada : String
  fecha_asignacion : Nat
  deriving DecidableEq, Repr

/-- Row of the `equipos_brigada` table (one equipment assignment). -/
structure EquipoRow where
  brigada_id : String
  tipo_equipo : String
  cantidad : Int
  deriving DecidableEq, Repr

/-- Row of the `brigadas` table.  Optional columns are `Option`. -/
structure Brigada where
  id : String
  nombre : Option String
  jefe_brigada_id : Option String
  botanico_id : Option String
  tecnico_auxiliar_id : Option String
  numero_coinvestigadores : Option Nat
  capacitacion_completada : Option Bool
  deriving DecidableEq, Repr

/-- Row of the `validaciones_conformacion` table.  Columns that some
writers leave unset are `Option`, so a partially-populated insert is
visible as `none` fields. -/
structure ValidacionRow where
  brigada_id : String
  tiene_jefe : Bool
  tiene_botanico : Bool
  tiene_tecnico : Bool
  numero_coinvestigadores : Nat
  equipos_completos : Option Bool
  capacitacion_completada : Option Bool
  fecha_validacion : Option Nat
  validado_por : Option String
  observaciones : Option String
  deriving DecidableEq, Repr

/-- The relational state behind the Supabase client: one list per table
touched by the modelled routes.  `catalogo_equipos_ifn` keeps only the
selected `nombre` column; `usuarios` keeps only the ids (the role
assignment route checks mere existence). -/
structure DB where
  brigadas : List Brigada
  brigada_brigadistas : List RoleRow
  equipos_brigada : List EquipoRow
  catalogo_equipos_ifn : List String
  validaciones_conformacion : List ValidacionRow
  usuarios : List String
  deriving DecidableEq, Repr

/-- One requirement entry of the checklist (`jefe_brigada`, `botanico`,
`tecnico_auxiliar` shape in the JS object literal). -/
structure RoleItem where
  requerido : Bool
  completado : Bool
  cantidad : Nat
  detalles : Option (List RoleRow)
  deriving DecidableEq, Repr

/-- The `coinvestigadores` checklist entry (has `cantidad_minima`). -/
structure CoinvItem where
  requerido : Bool
  cantidad_minima : Nat
  completado : Bool
  cantidad : Nat
  detalles : Option (List RoleRow)
  deriving DecidableEq, Repr

/-- The `equipos_ifn` checklist entry. -/
structure EquiposItem where
  requerido : Bool
  completado : Bool
  equipos_faltantes : List String
  total_catalogo : Nat
  total_asignados : Nat
  deriving DecidableEq, Repr

/-- The `capacitacion` checklist entry. -/
structure CapacitacionItem where
  requerido : Bool
  completado : Bool
  deriving DecidableEq, Repr

/-- The `validacion` sub-object of the checklist. -/
structure Validacion where
  jefe_brigada : RoleItem
  botanico : RoleItem
  tecnico_auxiliar : RoleItem
  coinvestigadores : CoinvItem
  equipos_ifn : EquiposItem
  capacitacion : CapacitacionItem
  deriving DecidableEq, Repr

/-- Example payload attached to a pending action. -/
inductive AccionBody where
  | asignarRol (usuario_id : String) (rol_en_brigada : String)
  | equipos (equipos : List (String × Int))
  | capacitacion (capacitacion_completada : Bool)
  deriving DecidableEq, Repr

/-- One remediation descriptor of `acciones_pendientes`. -/
structure Accion where
  paso : Nat
  accion : String
  endpoint : String
  body : AccionBody
  deriving DecidableEq, Repr

/-- The checklist object returned by the conformance evaluator. -/
structure Checklist where
  brigada_id : String
  nombre_brigada : Option String
  estado_conformacion : String
  validacion : Validacion
  cumple_minimo : Bool
  errores : List String
  advertencias : List String
  acciones_pendientes : List Accion
  deriving DecidableEq, Repr

instance : Inhabited Checklist :=
  ⟨{ brigada_id := ""
     nombre_brigada := none
     estado_conformacion := ""
     validacion :=
       { jefe_brigada := ⟨true, false, 0, none⟩
         botanico := ⟨true, false, 0, none⟩
         tecnico_auxiliar := ⟨true, false, 0, none⟩
         coinvestigadores := ⟨true, 2, false, 0, none⟩
         equipos_ifn := ⟨true, false, [], 0, 0⟩
         capacitacion := ⟨true, false⟩ }
     cumple_minimo := false
     errores := []
     advertencias := []
     acciones_pendientes := [] }⟩

/-- `equiposCatalogo.map(e => e.nombre).filter(n => !equiposAsignados.some(a => a.tipo_equipo === n))`
from the checklist handler (the catalog list already holds the selected
names). -/
def equiposFaltantes (catalogoNombres : List String) (asignados : List EquipoRow) :
    List String :=
  catalogoNombres.filter (fun n => ! asignados.any (fun a => a.tipo_equipo == n))

/-- Builds one `{requerido, completado, cantidad, detalles}` entry from
the result of a role read (`none` = read failed, data null). -/
def roleItem (rows : Option (List RoleRow)) : RoleItem :=
  { requerido := true
    completado := match rows with
      | some l => decide (0 < l.length)
      | none => false
    cantidad := match rows with
      | some l => l.length
      | none => 0
    detalles := match rows with
      | some l => if 0 < l.length then some l else none
      | none => none }

/-- Builds the `coinvestigadores` entry (threshold 2). -/
def coinvItem (rows : Option (List RoleRow)) : CoinvItem :=
  { requerido := true
    cantidad_minima := 2
    completado := match rows with
      | some l => decide (2 ≤ l.length)
      | none => false
    cantidad := match rows with
      | some l => l.length
      | none => 0
    detalles := match rows with
      | some l => if 2 ≤ l.length then some l else none
      | none => none }

/-- Error message for a short co-investigator count. -/
def coinvError (cantidad : Nat) : String :=
  s!"❌ Faltan COINVESTIGADORES (tiene {cantidad}, requiere mínimo 2)"

/-- Error message listing the missing equipment types. -/
def equiposError (faltantes : List String) : String :=
  let lista := String.intercalate ", " faltantes
  s!"❌ Equipos IFN incompletos. Faltantes: {lista}"

/-- Warning text for incomplete training. -/
def advertenciaCapacitacion : String :=
  "⚠️ ADVERTENCIA: Capacitación no completada aún"

/-- Remediation text for the co-investigator action. -/
def coinvAccionText (cantidad : Nat) : String :=
  let porAsignar : Int := 2 - (cantidad : Int)
  s!"Asignar {porAsignar} coinvestigador(es) más"

/-- Pasos 5 a 7 of the checklist handler: assembles the checklist
object, computes `cumple_minimo` as the five-way conjunction, sets the
status label and pushes the error / warning / pending-action entries in
the fixed source order. -/
def buildChecklist (brigadaId : String) (nombreBrigada : Option String)
    (jefe botanico tecnico coinvestigadores : Option (List RoleRow))
    (equiposAsignados : Option (List EquipoRow)) (catalogoNombres : List String)
    (capacitacionCompletada : Bool) : Checklist :=
  let faltantes := equiposFaltantes catalogoNombres (equiposAsignados.getD [])
  let validacion : Validacion :=
    { jefe_brigada := roleItem jefe
      botanico := roleItem botanico
      tecnico_auxiliar := roleItem tecnico
      coinvestigadores := coinvItem coinvestigadores
      equipos_ifn :=
        { requerido := true
          completado := decide (faltantes.length = 0)
          equipos_faltantes := faltantes
          total_catalogo := catalogoNombres.length
          total_asignados := match equiposAsignados with
            | some l => l.length
            | none => 0 }
      capacitacion := { requerido := true, completado := capacitacionCompletada } }
  let cumpleMinimo :=
    validacion.jefe_brigada.completado && validacion.botanico.completado &&
    validacion.tecnico_auxiliar.completado && validacion.coinvestigadores.completado &&
    validacion.equipos_ifn.completado
  { brigada_id := brigadaId
    nombre_brigada := nombreBrigada
    estado_conformacion := if cumpleMinimo then "conforme" else "en_progreso"
    validacion := validacion
    cumple_minimo := cumpleMinimo
    errores :=
      (if validacion.jefe_brigada.completado then [] else
        ["❌ Falta asignar JEFE DE BRIGADA"]) ++
      (if validacion.botanico.completado then [] else
        ["❌ Falta asignar BOTÁNICO"]) ++
      (if validacion.tecnico_auxiliar.completado then [] else
        ["❌ Falta asignar TÉCNICO AUXILIAR"]) ++
      (if validacion.coinvestigadores.completado then [] else
        [coinvError validacion.coinvestigadores.cantidad]) ++
      (if validacion.equipos_ifn.completado then [] else
        [equiposError faltantes])
    advertencias :=
      if validacion.capacitacion.completado then [] else [advertenciaCapacitacion]
    acciones_pendientes :=
      (if validacion.jefe_brigada.completado then [] else
        [{ paso := 1
           accion := "Asignar jefe de brigada"
           endpoint := "POST /api/brigadas/:id/asignar-rol"
           body := .asignarRol "uuid" "jefe_brigada" }]) ++
      (if validacion.botanico.completado then [] else
        [{ paso := 2
           accion := "Asignar botánico"
           endpoint := "POST /api/brigadas/:id/asignar-rol"
           body := .asignarRol "uuid" "botanico" }]) ++
      (if validacion.tecnico_auxiliar.completado then [] else
        [{ paso := 3
           accion := "Asignar técnico auxiliar"
           endpoint := "POST /api/brigadas/:id/asignar-rol"
           body := .asignarRol "uuid" "tecnico_auxiliar" }]) ++
      (if validacion.coinvestigadores.completado then [] else
        [{ paso := 4
           accion := coinvAccionText validacion.coinvestigadores.cantidad
           endpoint := "POST /api/brigadas/:id/asignar-rol"
           body := .asignarRol "uuid" "coinvestigador" }]) ++
      (if validacion.equipos_ifn.completado then [] else
        [{ paso := 5
           accion := "Asignar equipos faltantes"
           endpoint := "POST /api/brigadas/:id/equipos"
           body := .equipos (faltantes.map (fun e => (e, 1))) }]) ++
      (if validacion.capacitacion.completado then [] else
        [{ paso := 6
           accion := "Marcar capacitación como completada"
           endpoint := "PUT /api/brigadas/:id/capacitacion"
           body := .capacitacion true }]) }

/-- `brigada_brigadistas` rows of one brigade with one role (the four
role reads of Paso 2 of the checklist handler select exactly these). -/
def rowsConRol (db : DB) (id rol : String) : List RoleRow :=
  db.brigada_brigadistas.filter
    (fun r => r.brigada_id == id && r.rol_en_brigada == rol)

/-- Number of assignments of one role in one brigade. -/
def countRole (db : DB) (id rol : String) : Nat :=
  (rowsConRol db id rol).length

/-- `equipos_brigada` rows of one brigade (Paso 3 read). -/
def equiposDe (db : DB) (id : String) : List EquipoRow :=
  db.equipos_brigada.filter (fun e => e.brigada_id == id)

/-- Equipment types already assigned to one brigade. -/
def tiposAsignados (db : DB) (id : String) : List String :=
  (equiposDe db id).map (fun e => e.tipo_equipo)

/-- Modelled from the spec: store upsert with `onConflict: brigada_id`
(the conflict-resolution the handlers request from the store, executed
by the database, which is outside this repository).  The row carrying
the conflicting key is replaced in place; otherwise the row is
appended. -/
def upsertValidacion (rows : List ValidacionRow) (v : ValidacionRow) :
    List ValidacionRow :=
  if rows.any (fun r => r.brigada_id == v.brigada_id) then
    rows.map (fun r => if r.brigada_id == v.brigada_id then v else r)
  else
    rows ++ [v]

/-- Modelled from the spec: store upsert with
`onConflict: brigada_id,usuario_id` requested by the role-assignment
handler and executed by the database, which is outside this
repository.  The row carrying the conflicting key is replaced in
place; otherwise the row is appended. -/
def upsertRole (rows : List RoleRow) (row : RoleRow) : List RoleRow :=
  if rows.any (fun r =>
      r.brigada_id == row.brigada_id && r.usuario_id == row.usuario_id) then
    rows.map (fun r =>
      if r.brigada_id == row.brigada_id && r.usuario_id == row.usuario_id then
        row
      else r)
  else
    rows ++ [row]

/-- One store read issued by the checklist handler, in issue order. -/
inductive ReadOp where
  | brigadaRow (id : String)
  | roleRows (id rol : String)
  | equiposAsignados (id : String)
  | catalogo
  deriving DecidableEq, Repr

/-- HTTP outcome of the checklist handler. -/
inductive Response where
  | notFound
  | serverError
  | ok (c : Checklist)
  deriving DecidableEq, Repr

/-- Fault injection: which store interactions of the checklist handler
fail.  A failed read surfaces as `data = null` in the JS result object
(here `none`); a failed upsert surfaces as an `error` field that the
handler never looks at. -/
structure Failures where
  brigadaRead : Bool := false
  jefeRead : Bool := false
  botanicoRead : Bool := false
  tecnicoRead : Bool := false
  coinvRead : Bool := false
  equiposRead : Bool := false
  catalogoRead : Bool := false
  validacionUpsert : Bool := false
  deriving DecidableEq, Repr

/-- The fault-free run. -/
def noFailures : Failures := {}

/-- Only the team-lead role read fails. -/
def falloJefe : Failures := { jefeRead := true }

/-- All four role-count reads fail. -/
def fallosRoles : Failures :=
  { jefeRead := true, botanicoRead := true, tecnicoRead := true, coinvRead := true }

/-- Only the brigade-row read fails. -/
def falloBrigada : Failures := { brigadaRead := true }

/-- Only the assigned-equipment read fails. -/
def falloEquipos : Failures := { equiposRead := true }

/-- Only the equipment-catalog read fails. -/
def falloCatalogo : Failures := { catalogoRead := true }

/-- Only the final validation upsert fails. -/
def falloUpsert : Failures := { validacionUpsert := true }

/-- Result of one checklist-handler invocation: the response, the store
state afterwards, the reads that were issued, and what was written to
the operator log (`console.error`). -/
structure HandlerResult where
  response : Response
  db : DB
  reads : List ReadOp
  logs : List String
  deriving DecidableEq, Repr

/-- Log line of the catch-all handler of the checklist route. -/
def checklistCatchLog : String :=
  "Error en GET /api/brigadas/:id/checklist-conformacion:"

/-- The `observaciones` column written by Paso 8 (the JS renders a
locale timestamp; the embedding renders the clock tick). -/
def observacionesText (now : Nat) : String :=
  s!"Validación incremental - {now}"

/-- The reads issued once the brigade row was found. -/
def checklistReads (id : String) : List ReadOp :=
  [.brigadaRow id, .roleRows id "jefe_brigada", .roleRows id "botanico",
   .roleRows id "tecnico_auxiliar", .roleRows id "coinvestigador",
   .equiposAsignados id, .catalogo]

/-- GET `/api/brigadas/:id/checklist-conformacion` (the conformance
evaluator).  Mirrors the source step by step:
* Paso 1: brigade row via `.single()`; on store error or no row the
  handler answers 404 at once — no further store interaction.
* Paso 2: the four role reads destructure only `data`, so a failed read
  degrades to `null` and from there to count 0 — it is not checked.
* Paso 3: `equiposCatalogo.map` throws a TypeError when the catalog
  read failed, and the `.some` inside the filter throws when the
  assigned-equipment read failed and the catalog is non-empty; both
  land in the catch-all, answering 500.
* Paso 5 a 7: `buildChecklist`.
* Paso 8: upsert of the validation snapshot; its result object is
  discarded, so a failed upsert changes nothing and logs nothing. -/
def checklistHandler (db : DB) (f : Failures) (id : String)
    (userId : Option String) (now : Nat) : HandlerResult :=
  let brigadaData : Option Brigada :=
    if f.brigadaRead then none else db.brigadas.find? (fun b => b.id == id)
  match brigadaData with
  | none =>
    { response := .notFound, db := db, reads := [.brigadaRow id], logs := [] }
  | some brigada =>
    let jefe := if f.jefeRead then none else some (rowsConRol db id "jefe_brigada")
    let botanico := if f.botanicoRead then none else some (rowsConRol db id "botanico")
    let tecnico := if f.tecnicoRead then none else some (rowsConRol db id "tecnico_auxiliar")
    let coinvestigadores := if f.coinvRead then none else some (rowsConRol db id "coinvestigador")
    let equiposAsignados := if f.equiposRead then none else some (equiposDe db id)
    let catalogo := if f.catalogoRead then none else some db.catalogo_equipos_ifn
    match catalogo with
    | none =>
      { response := .serverError, db := db, reads := checklistReads id,
        logs := [checklistCatchLog] }
    | some catalogoNombres =>
      if equiposAsignados.isNone && decide (0 < catalogoNombres.length) then
        { response := .serverError, db := db, reads := checklistReads id,
          logs := [checklistCatchLog] }
      else
        let capacitacion := brigada.capacitacion_completada.getD false
        let checklist := buildChecklist id brigada.nombre jefe botanico tecnico
          coinvestigadores equiposAsignados catalogoNombres capacitacion
        let nuevaValidacion : ValidacionRow :=
          { brigada_id := id
            tiene_jefe := checklist.validacion.jefe_brigada.completado
            tiene_botanico := checklist.validacion.botanico.completado
            tiene_tecnico := checklist.validacion.tecnico_auxiliar.completado
            numero_coinvestigadores := checklist.validacion.coinvestigadores.cantidad
            equipos_completos := some checklist.validacion.equipos_ifn.completado
            capacitacion_completada := some checklist.validacion.capacitacion.completado
            fecha_validacion := some now
            validado_por := userId
            observaciones := some (observacionesText now) }
        let db2 :=
          if f.validacionUpsert then db
          else { db with validaciones_conformacion :=
                  upsertValidacion db.validaciones_conformacion nuevaValidacion }
        { response := .ok checklist, db := db2, reads := checklistReads id,
          logs := [] }

/-- Extracts the checklist of a successful response. -/
def respChecklist (r : Response) : Option Checklist :=
  match r with
  | .ok c => some c
  | _ => none

/-- Whether a response carries a checklist. -/
def isOk (r : Response) : Bool :=
  match r with
  | .ok _ => true
  | _ => false

/-- HTTP outcome of POST `/api/brigadas/conformar`. -/
inductive ConformarResponse where
  | badRequest
  | ok (brigada : Brigada)
  deriving DecidableEq, Repr

/-- Result of one conformar-handler invocation. -/
structure ConformarResult where
  response : ConformarResponse
  db : DB
  deriving DecidableEq, Repr

/-- JS falsiness of a request field holding a string
(undefined, null and the empty string are falsy). -/
def falsyStr (o : Option String) : Bool :=
  match o with
  | none => true
  | some s => s.isEmpty

/-- POST `/api/brigadas/conformar`.  After the minimum-requirements
guard it inserts a `brigadas` row (the store mints `newId`) and then
inserts a `validaciones_conformacion` row with hard-coded staffing
flags; the columns `equipos_completos`, `capacitacion_completada`,
`fecha_validacion` and `observaciones` are absent from that insert
(`none`), and the result of the insert is discarded. -/
def conformarHandler (db : DB) (nombre : Option String)
    (jefe_id botanico_id tecnico_id : Option String)
    (coinvestigadores_ids : List String) (userId : Option String)
    (newId : String) : ConformarResult :=
  if falsyStr jefe_id || falsyStr botanico_id || falsyStr tecnico_id ||
      decide (coinvestigadores_ids.length < 2) then
    { response := .badRequest, db := db }
  else
    let brigada : Brigada :=
      { id := newId
        nombre := nombre
        jefe_brigada_id := jefe_id
        botanico_id := botanico_id
        tecnico_auxiliar_id := tecnico_id
        numero_coinvestigadores := some coinvestigadores_ids.length
        capacitacion_completada := none }
    let validacion : ValidacionRow :=
      { brigada_id := newId
        tiene_jefe := true
        tiene_botanico := true
        tiene_tecnico := true
        numero_coinvestigadores := coinvestigadores_ids.length
        equipos_completos := none
        capacitacion_completada := none
        fecha_validacion := none
        validado_por := userId
        observaciones := none }
    { response := .ok brigada
      db := { db with
        brigadas := db.brigadas ++ [brigada]
        validaciones_conformacion := db.validaciones_conformacion ++ [validacion] } }

/-- The closed role vocabulary of POST `/api/brigadas/:id/asignar-rol`. -/
def rolesValidos : List String :=
  ["jefe_brigada", "botanico", "tecnico_auxiliar", "coinvestigador"]

/-- HTTP outcome of POST `/api/brigadas/:id/asignar-rol`. -/
inductive AsignarResponse where
  | badRequest
  | notFound
  | ok (asignacion : RoleRow)
  deriving DecidableEq, Repr

/-- Result of one asignar-rol invocation. -/
structure AsignarResult where
  response : AsignarResponse
  db : DB
  deriving DecidableEq, Repr

/-- POST `/api/brigadas/:id/asignar-rol`: validates the role against the
closed vocabulary (400 before any store call), checks brigade and user
existence (404), then upserts into `brigada_brigadistas` with conflict
key `(brigada_id, usuario_id)`. -/
def asignarRolHandler (db : DB) (id : String) (usuario_id : Option String)
    (rol_en_brigada : Option String) (now : Nat) : AsignarResult :=
  match rol_en_brigada with
  | none => { response := .badRequest, db := db }
  | some rol =>
    if ! rolesValidos.contains rol then
      { response := .badRequest, db := db }
    else
      match db.brigadas.find? (fun b => b.id == id) with
      | none => { response := .notFound, db := db }
      | some _ =>
        match usuario_id with
        | none => { response := .notFound, db := db }
        | some uid =>
          if ! db.usuarios.contains uid then
            { response := .notFound, db := db }
          else
            let row : RoleRow :=
              { brigada_id := id, usuario_id := uid, rol_en_brigada := rol,
                fecha_asignacion := now }
            { response := .ok row
              db := { db with
                brigada_brigadistas := upsertRole db.brigada_brigadistas row } }

/-- Rows of `brigada_brigadistas` for one `(brigada_id, usuario_id)`
conflict key. -/
def rowsParaClave (rows : List RoleRow) (b u : String) : List RoleRow :=
  rows.filter (fun r => r.brigada_id == b && r.usuario_id == u)

/-- The store state after a successful role upsert. -/
def dbTrasRol (db : DB) (row : RoleRow) : DB :=
  { db with brigada_brigadistas := upsertRole db.brigada_brigadistas row }

/-- The snapshot row Paso 8 builds from a computed checklist. -/
def snapshotRow (c : Checklist) (id : String) (userId : Option String)
    (now : Nat) : ValidacionRow :=
  { brigada_id := id
    tiene_jefe := c.validacion.jefe_brigada.completado
    tiene_botanico := c.validacion.botanico.completado
    tiene_tecnico := c.validacion.tecnico_auxiliar.completado
    numero_coinvestigadores := c.validacion.coinvestigadores.cantidad
    equipos_completos := some c.validacion.equipos_ifn.completado
    capacitacion_completada := some c.validacion.capacitacion.completado
    fecha_validacion := some now
    validado_por := userId
    observaciones := some (observacionesText now) }

/-- The partial row POST `/api/brigadas/conformar` inserts into
`validaciones_conformacion`. -/
def conformarRow (coinvestigadores_ids : List String) (userId : Option String)
    (newId : String) : ValidacionRow :=
  { brigada_id := newId
    tiene_jefe := true
    tiene_botanico := true
    tiene_tecnico := true
    numero_coinvestigadores := coinvestigadores_ids.length
    equipos_completos := none
    capacitacion_completada := none
    fecha_validacion := none
    validado_por := userId
    observaciones := none }

/-- Demo brigade used by the concrete witnesses. -/
def brigadaUno : Brigada :=
  { id := "b1", nombre := some "Brigada Uno", jefe_brigada_id := none,
    botanico_id := none, tecnico_auxiliar_id := none,
    numero_coinvestigadores := none, capacitacion_completada := some false }

/-- Demo store state: one brigade with no assignments, a two-item
catalog, training incomplete. -/
def dbDemo : DB :=
  { brigadas := [brigadaUno]
    brigada_brigadistas := []
    equipos_brigada := []
    catalogo_equipos_ifn := ["GPS", "Brújula"]
    validaciones_conformacion := []
    usuarios := ["u1", "u2"] }

/-- Demo store state in which the brigade does have a team lead. -/
def dbJefe : DB :=
  { dbDemo with brigada_brigadistas :=
      [{ brigada_id := "b1", usuario_id := "u9",
         rol_en_brigada := "jefe_brigada", fecha_asignacion := 0 }] }

/-- The checklist the fault-free evaluation of `dbDemo` computes. -/
def demoChecklist1 : Checklist :=
  (respChecklist (checklistHandler dbDemo noFailures "b1" (some "admin") 7).response).getD
    default

/-- The checklist a fault-free evaluation computes for brigade row `b`. -/
def checklistDe (db : DB) (id : String) (b : Brigada) : Checklist :=
  buildChecklist id b.nombre (some (rowsConRol db id "jefe_brigada"))
    (some (rowsConRol db id "botanico")) (some (rowsConRol db id "tecnico_auxiliar"))
    (some (rowsConRol db id "coinvestigador")) (some (equiposDe db id))
    db.catalogo_equipos_ifn (b.capacitacion_completada.getD false)

/-- The store state after the Paso 8 upsert of a fault-free evaluation. -/
def dbTrasChecklist (db : DB) (id : String) (b : Brigada)
    (userId : Option String) (now : Nat) : DB :=
  let nueva := snapshotRow (checklistDe db id b) id userId now
  { db with validaciones_conformacion := upsertValidacion db.validaciones_conformacion nueva }

/-- Demo store state with an empty equipment catalog. -/
def dbCatVacio : DB := { dbDemo with catalogo_equipos_ifn := [] }

/-! ## Theorems -/

/-- Membership in the missing-equipment list is exactly membership in
the catalog minus membership in the assigned types. -/
theorem any_tipo_iff_mem (asignados : List EquipoRow) (n : String) :
    (asignados.any (fun a => a.tipo_equipo == n) = true) ↔
      n ∈ asignados.map EquipoRow.tipo_equipo := by
  rw [List.any_eq_true]
  constructor
  · rintro ⟨a, ha, hb⟩
    exact List.mem_map.2 ⟨a, ha, by exact eq_of_beq hb⟩
  · intro h
    obtain ⟨a, ha, hb⟩ := List.mem_map.1 h
    exact ⟨a, ha, by exact beq_of_eq hb⟩

/-- Membership in the missing-equipment list is exactly membership in
the catalog minus membership in the assigned types. -/
theorem mem_equiposFaltantes (catalogoNombres : List String)
    (asignados : List EquipoRow) (n : String) :
    n ∈ equiposFaltantes catalogoNombres asignados ↔
      n ∈ catalogoNombres ∧ n ∉ asignados.map EquipoRow.tipo_equipo := by
  unfold equiposFaltantes
  rw [List.mem_filter]
  constructor
  · rintro ⟨h1, h2⟩
    refine ⟨h1, fun hmem => ?_⟩
    rw [(any_tipo_iff_mem asignados n).2 hmem] at h2
    exact absurd h2 (by decide)
  · rintro ⟨h1, h2⟩
    refine ⟨h1, ?_⟩
    have : asignados.any (fun a => a.tipo_equipo == n) = false := by
      cases hcase : asignados.any (fun a => a.tipo_equipo == n)
      · rfl
      · exact absurd ((any_tipo_iff_mem asignados n).1 hcase) h2
    rw [this]
    rfl

/-- The missing-equipment list is empty exactly when the assigned types
cover the catalog. -/
theorem equiposFaltantes_eq_nil (catalogoNombres : List String)
    (asignados : List EquipoRow) :
    equiposFaltantes catalogoNombres asignados = [] ↔
      ∀ m ∈ catalogoNombres, m ∈ asignados.map EquipoRow.tipo_equipo := by
  unfold equiposFaltantes
  rw [List.filter_eq_nil_iff]
  constructor
  · intro h m hm
    have := h m hm
    by_contra hmem
    have hfalse : asignados.any (fun a => a.tipo_equipo == m) = false := by
      cases hcase : asignados.any (fun a => a.tipo_equipo == m)
      · rfl
      · exact absurd ((any_tipo_iff_mem asignados m).1 hcase) hmem
    rw [hfalse] at this
    exact this rfl
  · intro h m hm
    rw [(any_tipo_iff_mem asignados m).2 (h m hm)]
    decide

/-- C6: training_completed is excluded from the blocking conjunction:
flipping the training flag never changes `cumple_minimo`, and an
incomplete training always yields exactly the one warning entry. -/
theorem claim6_capacitacion_soft (brigadaId : String)
    (nombreBrigada : Option String)
    (jefe botanico tecnico coinvestigadores : Option (List RoleRow))
    (equiposAsignados : Option (List EquipoRow)) (catalogoNombres : List String)
    (cap : Bool) :
    (buildChecklist brigadaId nombreBrigada jefe botanico tecnico coinvestigadores
        equiposAsignados catalogoNombres cap).cumple_minimo
      = (buildChecklist brigadaId nombreBrigada jefe botanico tecnico coinvestigadores
        equiposAsignados catalogoNombres true).cumple_minimo
    ∧ (buildChecklist brigadaId nombreBrigada jefe botanico tecnico coinvestigadores
        equiposAsignados catalogoNombres false).advertencias
      = [advertenciaCapacitacion] :=
  ⟨rfl, rfl⟩

/-- C7: the missing-equipment list of the checklist is the set
difference catalog minus assigned types, `completado` holds exactly
when it is empty, and assigned rows matter only through the set of
their types (duplicates and extras are irrelevant). -/
theorem claim7_equipos_diferencia (catalogoNombres : List String)
    (asignados asignados2 : List EquipoRow) (n : String)
    (hsame : ∀ m, m ∈ asignados.map EquipoRow.tipo_equipo ↔
      m ∈ asignados2.map EquipoRow.tipo_equipo) :
    (n ∈ equiposFaltantes catalogoNombres asignados ↔
      n ∈ catalogoNombres ∧ n ∉ asignados.map EquipoRow.tipo_equipo)
    ∧ (equiposFaltantes catalogoNombres asignados = [] ↔
      ∀ m ∈ catalogoNombres, m ∈ asignados.map EquipoRow.tipo_equipo)
    ∧ equiposFaltantes catalogoNombres asignados
      = equiposFaltantes catalogoNombres asignados2
    ∧ (buildChecklist "b" none none none none none (some asignados)
        catalogoNombres true).validacion.equipos_ifn.equipos_faltantes
      = equiposFaltantes catalogoNombres asignados
    ∧ ((buildChecklist "b" none none none none none (some asignados)
        catalogoNombres true).validacion.equipos_ifn.completado = true ↔
      equiposFaltantes catalogoNombres asignados = []) := by
  refine ⟨mem_equiposFaltantes _ _ _, equiposFaltantes_eq_nil _ _, ?_, rfl, ?_⟩
  · unfold equiposFaltantes
    refine List.filter_congr (fun m _ => ?_)
    have h1 : (asignados.any (fun a => a.tipo_equipo == m))
        = (asignados2.any (fun a => a.tipo_equipo == m)) := by
      cases hc1 : asignados.any (fun a => a.tipo_equipo == m) <;>
        cases hc2 : asignados2.any (fun a => a.tipo_equipo == m)
      · rfl
      · have hmem := (hsame m).2 ((any_tipo_iff_mem asignados2 m).1 hc2)
        have := (any_tipo_iff_mem asignados m).2 hmem
        rw [hc1] at this
        cases this
      · have hmem := (hsame m).1 ((any_tipo_iff_mem asignados m).1 hc1)
        have := (any_tipo_iff_mem asignados2 m).2 hmem
        rw [hc2] at this
        cases this
      · rfl
    rw [h1]
  · show (decide ((equiposFaltantes catalogoNombres
      ((some asignados).getD [])).length = 0) = true) ↔ _
    simp [List.length_eq_zero]

/-- C7 witness: catalog `{A,B,C}` with assigned `{A,B}` gives missing
`{C}` and an unsatisfied equipment requirement; appending a duplicate
`A` row changes nothing. -/
theorem claim7_equipos_diferencia_witness :
    (("C" ∈ equiposFaltantes ["A", "B", "C"]
        [⟨"b1", "A", 1⟩, ⟨"b1", "B", 1⟩] ↔
      "C" ∈ ["A", "B", "C"] ∧
        "C" ∉ List.map EquipoRow.tipo_equipo [⟨"b1", "A", 1⟩, ⟨"b1", "B", 1⟩])
    ∧ (equiposFaltantes ["A", "B", "C"] [⟨"b1", "A", 1⟩, ⟨"b1", "B", 1⟩] = [] ↔
      ∀ m ∈ ["A", "B", "C"],
        m ∈ List.map EquipoRow.tipo_equipo [⟨"b1", "A", 1⟩, ⟨"b1", "B", 1⟩])
    ∧ equiposFaltantes ["A", "B", "C"] [⟨"b1", "A", 1⟩, ⟨"b1", "B", 1⟩]
      = equiposFaltantes ["A", "B", "C"]
          [⟨"b1", "A", 1⟩, ⟨"b1", "B", 1⟩, ⟨"b1", "A", 3⟩]
    ∧ (buildChecklist "b" none none none none none
        (some [⟨"b1", "A", 1⟩, ⟨"b1", "B", 1⟩]) ["A", "B", "C"]
        true).validacion.equipos_ifn.equipos_faltantes
      = equiposFaltantes ["A", "B", "C"] [⟨"b1", "A", 1⟩, ⟨"b1", "B", 1⟩]
    ∧ ((buildChecklist "b" none none none none none
        (some [⟨"b1", "A", 1⟩, ⟨"b1", "B", 1⟩]) ["A", "B", "C"]
        true).validacion.equipos_ifn.completado = true ↔
      equiposFaltantes ["A", "B", "C"] [⟨"b1", "A", 1⟩, ⟨"b1", "B", 1⟩] = []))
    ∧ equiposFaltantes ["A", "B", "C"] [⟨"b1", "A", 1⟩, ⟨"b1", "B", 1⟩] = ["C"]
    ∧ (buildChecklist "b" none none none none none
        (some [⟨"b1", "A", 1⟩, ⟨"b1", "B", 1⟩]) ["A", "B", "C"]
        true).validacion.equipos_ifn.completado = false :=
  ⟨claim7_equipos_diferencia ["A", "B", "C"]
      [⟨"b1", "A", 1⟩, ⟨"b1", "B", 1⟩]
      [⟨"b1", "A", 1⟩, ⟨"b1", "B", 1⟩, ⟨"b1", "A", 3⟩] "C"
      (by
        intro m
        constructor <;> intro h <;> simp [List.mem_map] at h ⊢ <;> tauto),
    by decide, by decide⟩

/-- C8: the co-investigator requirement computed by the checklist is
the threshold predicate `2 ≤ count`: count 1 fails, count 2 and every
larger count succeed, monotonically. -/
theorem claim8_coinvestigadores_umbral (brigadaId : String)
    (nombreBrigada : Option String) (jefe botanico tecnico : Option (List RoleRow))
    (equiposAsignados : Option (List EquipoRow)) (catalogoNombres : List String)
    (cap : Bool) (l l2 : List RoleRow) (hlen : l.length ≤ l2.length) :
    ((buildChecklist brigadaId nombreBrigada jefe botanico tecnico (some l)
        equiposAsignados catalogoNombres cap).validacion.coinvestigadores.completado
      = decide (2 ≤ l.length))
    ∧ (l.length = 1 →
      (buildChecklist brigadaId nombreBrigada jefe botanico tecnico (some l)
        equiposAsignados catalogoNombres cap).validacion.coinvestigadores.completado
        = false)
    ∧ (l.length = 2 →
      (buildChecklist brigadaId nombreBrigada jefe botanico tecnico (some l)
        equiposAsignados catalogoNombres cap).validacion.coinvestigadores.completado
        = true)
    ∧ (3 ≤ l.length →
      (buildChecklist brigadaId nombreBrigada jefe botanico tecnico (some l)
        equiposAsignados catalogoNombres cap).validacion.coinvestigadores.completado
        = true)
    ∧ ((buildChecklist brigadaId nombreBrigada jefe botanico tecnico (some l)
        equiposAsignados catalogoNombres cap).validacion.coinvestigadores.completado
          = true →
      (buildChecklist brigadaId nombreBrigada jefe botanico tecnico (some l2)
        equiposAsignados catalogoNombres cap).validacion.coinvestigadores.completado
        = true) := by
  refine ⟨rfl, ?_, ?_, ?_, ?_⟩
  · intro h
    show decide (2 ≤ l.length) = false
    rw [h]
    rfl
  · intro h
    show decide (2 ≤ l.length) = true
    rw [h]
    rfl
  · intro h
    show decide (2 ≤ l.length) = true
    exact decide_eq_true (by omega)
  · intro h
    replace h : decide (2 ≤ l.length) = true := h
    replace h := of_decide_eq_true h
    show decide (2 ≤ l2.length) = true
    exact decide_eq_true (by omega)

/-- C8 witness: counts 1, 2 and 3 at concrete rows. -/
theorem claim8_coinvestigadores_umbral_witness :
    ((buildChecklist "b" none none none none (some [⟨"b1", "u1", "coinvestigador", 0⟩])
        none [] true).validacion.coinvestigadores.completado = false)
    ∧ ((buildChecklist "b" none none none none
        (some [⟨"b1", "u1", "coinvestigador", 0⟩, ⟨"b1", "u2", "coinvestigador", 0⟩])
        none [] true).validacion.coinvestigadores.completado = true)
    ∧ ((buildChecklist "b" none none none none
        (some [⟨"b1", "u1", "coinvestigador", 0⟩, ⟨"b1", "u2", "coinvestigador", 0⟩,
          ⟨"b1", "u3", "coinvestigador", 0⟩])
        none [] true).validacion.coinvestigadores.completado = true) :=
  ⟨(claim8_coinvestigadores_umbral "b" none none none none none [] true
      [⟨"b1", "u1", "coinvestigador", 0⟩]
      [⟨"b1", "u1", "coinvestigador", 0⟩, ⟨"b1", "u2", "coinvestigador", 0⟩]
      (by decide)).2.1 (by decide),
    (claim8_coinvestigadores_umbral "b" none none none none none [] true
      [⟨"b1", "u1", "coinvestigador", 0⟩, ⟨"b1", "u2", "coinvestigador", 0⟩]
      [⟨"b1", "u1", "coinvestigador", 0⟩, ⟨"b1", "u2", "coinvestigador", 0⟩]
      (by decide)).2.2.1 (by decide),
    (claim8_coinvestigadores_umbral "b" none none none none none [] true
      [⟨"b1", "u1", "coinvestigador", 0⟩, ⟨"b1", "u2", "coinvestigador", 0⟩,
        ⟨"b1", "u3", "coinvestigador", 0⟩]
      [⟨"b1", "u1", "coinvestigador", 0⟩, ⟨"b1", "u2", "coinvestigador", 0⟩,
        ⟨"b1", "u3", "coinvestigador", 0⟩]
      (by decide)).2.2.2.1 (by decide)⟩


/-- Fault-free evaluation of an unknown brigade id reduces to the 404
result after the single brigade-row read. -/
theorem checklistHandler_noFailures_notFound (db : DB) (id : String)
    (userId : Option String) (now : Nat)
    (hb : db.brigadas.find? (fun x => x.id == id) = none) :
    checklistHandler db noFailures id userId now =
      { response := .notFound, db := db, reads := [.brigadaRow id], logs := [] } := by
  unfold checklistHandler
  rw [show (if noFailures.brigadaRead then none
      else db.brigadas.find? (fun x => x.id == id)) = none from hb]

/-- Fault-free evaluation of a found brigade reduces to the checklist
response together with the audit upsert. -/
theorem checklistHandler_noFailures_found (db : DB) (id : String)
    (userId : Option String) (now : Nat) (b : Brigada)
    (hb : db.brigadas.find? (fun x => x.id == id) = some b) :
    checklistHandler db noFailures id userId now =
      { response := .ok (checklistDe db id b),
        db := dbTrasChecklist db id b userId now,
        reads := checklistReads id,
        logs := [] } := by
  unfold checklistHandler
  rw [show (if noFailures.brigadaRead then none
      else db.brigadas.find? (fun x => x.id == id)) = some b from hb]
  rfl

/-- When only the audit upsert fails, the evaluation of a found brigade
returns the same checklist, leaves the store untouched and logs
nothing. -/
theorem checklistHandler_upsertFail_found (db : DB) (id : String)
    (userId : Option String) (now : Nat) (b : Brigada)
    (hb : db.brigadas.find? (fun x => x.id == id) = some b) :
    checklistHandler db falloUpsert id userId now =
      { response := .ok (checklistDe db id b), db := db,
        reads := checklistReads id, logs := [] } := by
  unfold checklistHandler
  rw [show (if falloUpsert.brigadaRead then none
      else db.brigadas.find? (fun x => x.id == id)) = some b from hb]
  rfl

theorem rowsConRol_eq_nil (db : DB) (id rol : String)
    (h : db.brigada_brigadistas.filter (fun r => r.brigada_id == id) = []) :
    rowsConRol db id rol = [] := by
  unfold rowsConRol
  rw [List.filter_eq_nil_iff]
  intro r hr
  intro hcontra
  rw [Bool.and_eq_true] at hcontra
  exact (List.filter_eq_nil_iff.1 h) r hr hcontra.1

theorem equiposFaltantes_nil_asignados (cat : List String) :
    equiposFaltantes cat [] = cat := by
  unfold equiposFaltantes
  simp

theorem countRole_zero_rows (db : DB) (id rol : String)
    (h : countRole db id rol = 0) : rowsConRol db id rol = [] :=
  List.eq_nil_of_length_eq_zero h

/-- The five-way conjunction behind `cumple_minimo` when every read
delivered data. -/
theorem buildChecklist_cumple_some (bid : String) (nom : Option String)
    (lj lb lt lc : List RoleRow) (asg : List EquipoRow) (cat : List String)
    (cap : Bool) :
    ((buildChecklist bid nom (some lj) (some lb) (some lt) (some lc) (some asg)
        cat cap).cumple_minimo = true) ↔
      (1 ≤ lj.length ∧ 1 ≤ lb.length ∧ 1 ≤ lt.length ∧ 2 ≤ lc.length ∧
       ∀ n ∈ cat, n ∈ asg.map EquipoRow.tipo_equipo) := by
  have hshow : (buildChecklist bid nom (some lj) (some lb) (some lt) (some lc)
      (some asg) cat cap).cumple_minimo
      = (decide (0 < lj.length) && decide (0 < lb.length) && decide (0 < lt.length) &&
         decide (2 ≤ lc.length) && decide ((equiposFaltantes cat asg).length = 0)) := rfl
  rw [hshow]
  simp only [Bool.and_eq_true, decide_eq_true_eq]
  rw [List.length_eq_zero, equiposFaltantes_eq_nil]
  constructor
  · rintro ⟨⟨⟨⟨h1, h2⟩, h3⟩, h4⟩, h5⟩
    exact ⟨by omega, by omega, by omega, h4, h5⟩
  · rintro ⟨h1, h2, h3, h4, h5⟩
    exact ⟨⟨⟨⟨by omega, by omega⟩, by omega⟩, h4⟩, h5⟩

/-- The status label is derived from `cumple_minimo` and nothing else. -/
theorem buildChecklist_estado (bid : String) (nom : Option String)
    (jefe botanico tecnico coinvestigadores : Option (List RoleRow))
    (asg : Option (List EquipoRow)) (cat : List String) (cap : Bool) :
    (buildChecklist bid nom jefe botanico tecnico coinvestigadores asg cat
        cap).estado_conformacion
      = (if (buildChecklist bid nom jefe botanico tecnico coinvestigadores asg cat
          cap).cumple_minimo then "conforme" else "en_progreso") := rfl

/-- The checklist of a brigade with no assignments at all, no equipment
and incomplete training, against a non-empty catalog. -/
theorem buildChecklist_vacio (bid : String) (nom : Option String)
    (cat : List String) (hcat : cat ≠ []) :
    (buildChecklist bid nom (some []) (some []) (some []) (some []) (some [])
        cat false).cumple_minimo = false
    ∧ (buildChecklist bid nom (some []) (some []) (some []) (some []) (some [])
        cat false).estado_conformacion = "en_progreso"
    ∧ (buildChecklist bid nom (some []) (some []) (some []) (some []) (some [])
        cat false).errores
      = ["❌ Falta asignar JEFE DE BRIGADA", "❌ Falta asignar BOTÁNICO",
         "❌ Falta asignar TÉCNICO AUXILIAR", coinvError 0, equiposError cat]
    ∧ (buildChecklist bid nom (some []) (some []) (some []) (some []) (some [])
        cat false).advertencias = [advertenciaCapacitacion]
    ∧ (buildChecklist bid nom (some []) (some []) (some []) (some []) (some [])
        cat false).acciones_pendientes.map Accion.paso = [1, 2, 3, 4, 5, 6] := by
  have hfalt : equiposFaltantes cat ([] : List EquipoRow) = cat :=
    equiposFaltantes_nil_asignados cat
  have hlen : decide ((equiposFaltantes cat ([] : List EquipoRow)).length = 0)
      = false := by
    rw [hfalt]
    exact decide_eq_false (fun hc => hcat (List.eq_nil_of_length_eq_zero hc))
  refine ⟨?_, ?_, ?_, ?_, ?_⟩
  all_goals simp only [buildChecklist, roleItem, coinvItem, hlen, hfalt,
    Option.getD_some]
  all_goals simp [hcat]


theorem mem_upsertValidacion (rows : List ValidacionRow) (v : ValidacionRow) :
    v ∈ upsertValidacion rows v := by
  unfold upsertValidacion
  by_cases h : rows.any (fun r => r.brigada_id == v.brigada_id) = true
  · rw [if_pos h]
    obtain ⟨r, hr, hpred⟩ := List.any_eq_true.1 h
    exact List.mem_map.2 ⟨r, hr, by rw [if_pos hpred]⟩
  · rw [if_neg h]
    exact List.mem_append.2 (Or.inr (List.mem_singleton.2 rfl))

theorem upsertValidacion_eq_of_clave (rows : List ValidacionRow)
    (v w : ValidacionRow) (hw : w ∈ upsertValidacion rows v)
    (hkey : w.brigada_id = v.brigada_id) : w = v := by
  unfold upsertValidacion at hw
  by_cases h : rows.any (fun r => r.brigada_id == v.brigada_id) = true
  · rw [if_pos h] at hw
    obtain ⟨r, hr, hg⟩ := List.mem_map.1 hw
    by_cases hr2 : (r.brigada_id == v.brigada_id) = true
    · rw [if_pos hr2] at hg
      exact hg.symm
    · rw [if_neg hr2] at hg
      subst hg
      exact absurd (beq_of_eq hkey) hr2
  · rw [if_neg h] at hw
    rcases List.mem_append.1 hw with hmem | hmem
    · exfalso
      exact h (List.any_eq_true.2 ⟨w, hmem, beq_of_eq hkey⟩)
    · exact List.mem_singleton.1 hmem

/-- Replacing every key-matching row by `row` and filtering on the key
leaves as many copies of `row` as there were matches. -/
theorem filter_map_replace {α : Type} (p : α → Bool) (row : α)
    (hrow : p row = true) (rows : List α) :
    (rows.map (fun r => if p r then row else r)).filter p
      = List.replicate (rows.countP p) row := by
  induction rows with
  | nil => rfl
  | cons r rs ih =>
    by_cases hr : p r = true
    · simp [List.filter_cons, hr, hrow, List.countP_cons, ih, List.replicate_succ]
    · simp [List.filter_cons, hr, List.countP_cons, ih]

/-- After an upsert on a key that held at most one row, the rows of
that key are exactly the upserted row. -/
theorem upsertRole_clave (rows : List RoleRow) (row : RoleRow)
    (hkey : (rowsParaClave rows row.brigada_id row.usuario_id).length ≤ 1) :
    rowsParaClave (upsertRole rows row) row.brigada_id row.usuario_id = [row] := by
  unfold rowsParaClave at hkey ⊢
  unfold upsertRole
  by_cases h : rows.any (fun r =>
      r.brigada_id == row.brigada_id && r.usuario_id == row.usuario_id) = true
  · rw [if_pos h]
    have hrow : (row.brigada_id == row.brigada_id &&
        row.usuario_id == row.usuario_id) = true := by simp
    rw [filter_map_replace _ row hrow rows]
    have h1 : 0 < rows.countP (fun r =>
        r.brigada_id == row.brigada_id && r.usuario_id == row.usuario_id) := by
      obtain ⟨r, hr, hpred⟩ := List.any_eq_true.1 h
      exact List.countP_pos_iff.2 ⟨r, hr, hpred⟩
    have h2 : rows.countP (fun r =>
        r.brigada_id == row.brigada_id && r.usuario_id == row.usuario_id) ≤ 1 := by
      rw [List.countP_eq_length_filter]
      exact hkey
    have h3 : rows.countP (fun r =>
        r.brigada_id == row.brigada_id && r.usuario_id == row.usuario_id) = 1 := by
      omega
    rw [h3]
    rfl
  · rw [if_neg h]
    rw [List.filter_append]
    have hnil : rows.filter (fun r =>
        r.brigada_id == row.brigada_id && r.usuario_id == row.usuario_id) = [] := by
      rw [List.filter_eq_nil_iff]
      intro r hr hcon
      exact h (List.any_eq_true.2 ⟨r, hr, hcon⟩)
    rw [hnil]
    simp

/-- A valid role assignment on an existing brigade and user reduces to
the key upsert. -/
theorem asignarRolHandler_ok (db : DB) (id uid rol : String) (now : Nat)
    (hrol : rolesValidos.contains rol = true)
    (hb : (db.brigadas.find? (fun x => x.id == id)).isSome = true)
    (hu : db.usuarios.contains uid = true) :
    asignarRolHandler db id (some uid) (some rol) now =
      { response := .ok ⟨id, uid, rol, now⟩,
        db := dbTrasRol db ⟨id, uid, rol, now⟩ } := by
  obtain ⟨b, hb2⟩ := Option.isSome_iff_exists.1 hb
  have hm1 : rol ∈ rolesValidos := by simpa using hrol
  have hm2 : uid ∈ db.usuarios := by simpa using hu
  unfold asignarRolHandler
  simp [hrol, hu, hb2, hm1, hm2, dbTrasRol]


/-- C1: for every brigade found by the fault-free evaluation, the
checklist field `cumple_minimo` equals the conjunction of the five
blocking requirements (team lead, botanist and assistant technician
each at least 1, co-investigators at least 2, and no catalog equipment
type missing from the assigned types), and `estado_conformacion` is
`conforme` exactly when that conjunction holds and `en_progreso`
otherwise. -/
theorem claim1_cumple_minimo_conjuncion (db : DB) (id : String)
    (userId : Option String) (now : Nat) (c : Checklist)
    (h : (checklistHandler db noFailures id userId now).response = .ok c) :
    (c.cumple_minimo = true ↔
      (1 ≤ countRole db id "jefe_brigada" ∧ 1 ≤ countRole db id "botanico" ∧
       1 ≤ countRole db id "tecnico_auxiliar" ∧
       2 ≤ countRole db id "coinvestigador" ∧
       ∀ n ∈ db.catalogo_equipos_ifn, n ∈ tiposAsignados db id))
    ∧ c.estado_conformacion
      = (if c.cumple_minimo then "conforme" else "en_progreso") := by
  cases hb : db.brigadas.find? (fun x => x.id == id) with
  | none =>
    rw [checklistHandler_noFailures_notFound db id userId now hb] at h
    cases h
  | some b =>
    rw [checklistHandler_noFailures_found db id userId now b hb] at h
    replace h : Response.ok (checklistDe db id b) = Response.ok c := h
    injection h with h
    subst h
    refine ⟨?_, buildChecklist_estado _ _ _ _ _ _ _ _ _⟩
    exact buildChecklist_cumple_some id b.nombre (rowsConRol db id "jefe_brigada")
      (rowsConRol db id "botanico") (rowsConRol db id "tecnico_auxiliar")
      (rowsConRol db id "coinvestigador") (equiposDe db id)
      db.catalogo_equipos_ifn (b.capacitacion_completada.getD false)

/-- C1 witness: the demo store evaluated at brigade b1. -/
theorem claim1_cumple_minimo_conjuncion_witness :
    (demoChecklist1.cumple_minimo = true ↔
      (1 ≤ countRole dbDemo "b1" "jefe_brigada" ∧
       1 ≤ countRole dbDemo "b1" "botanico" ∧
       1 ≤ countRole dbDemo "b1" "tecnico_auxiliar" ∧
       2 ≤ countRole dbDemo "b1" "coinvestigador" ∧
       ∀ n ∈ dbDemo.catalogo_equipos_ifn, n ∈ tiposAsignados dbDemo "b1"))
    ∧ demoChecklist1.estado_conformacion
      = (if demoChecklist1.cumple_minimo then "conforme" else "en_progreso") :=
  claim1_cumple_minimo_conjuncion dbDemo "b1" (some "admin") 7 demoChecklist1 rfl

/-- C2 counterexample: with a brigade that does have a team lead on
record, a failed team-lead read does not abort the evaluation: a
checklist is still returned, and it reports a team-lead count of 0
while the store holds 1 — a checklist built from partial data. -/
theorem claim2_lectura_rol_counterexample :
    isOk (checklistHandler dbJefe falloJefe "b1" none 0).response = true
    ∧ (respChecklist (checklistHandler dbJefe falloJefe "b1" none
        0).response).map (fun c => c.validacion.jefe_brigada.cantidad) = some 0
    ∧ countRole dbJefe "b1" "jefe_brigada" = 1 := by
  refine ⟨rfl, rfl, rfl⟩

/-- C2 amended: a store error on the brigade-row read yields the 404
response; a store error on the catalog read, or on the
assigned-equipment read while the catalog is non-empty, aborts with the
500 handler; but store errors on the four role-count reads (or on the
assigned-equipment read with an empty catalog) do not abort — the
failed read degrades to zero rows and a checklist is still returned. -/
theorem claim2_abort_amended :
    (∀ (db : DB) (f : Failures) (id : String) (userId : Option String) (now : Nat),
      f.brigadaRead = true →
      (checklistHandler db f id userId now).response = .notFound)
    ∧ (∀ (db : DB) (id : String) (userId : Option String) (now : Nat) (b : Brigada),
      db.brigadas.find? (fun x => x.id == id) = some b →
      (checklistHandler db falloCatalogo id userId now).response
        = .serverError)
    ∧ (∀ (db : DB) (id : String) (userId : Option String) (now : Nat) (b : Brigada),
      db.brigadas.find? (fun x => x.id == id) = some b →
      db.catalogo_equipos_ifn ≠ [] →
      (checklistHandler db falloEquipos id userId now).response
        = .serverError)
    ∧ (∀ (db : DB) (id : String) (userId : Option String) (now : Nat) (b : Brigada),
      db.brigadas.find? (fun x => x.id == id) = some b →
      isOk (checklistHandler db fallosRoles id userId now).response = true)
    ∧ (∀ (db : DB) (id : String) (userId : Option String) (now : Nat) (b : Brigada),
      db.brigadas.find? (fun x => x.id == id) = some b →
      db.catalogo_equipos_ifn = [] →
      isOk (checklistHandler db falloEquipos id userId now).response
        = true) := by
  refine ⟨?_, ?_, ?_, ?_, ?_⟩
  · intro db f id userId now hf
    unfold checklistHandler
    simp [hf]
  · intro db id userId now b hb
    unfold checklistHandler
    rw [show (if falloCatalogo.brigadaRead then none
        else db.brigadas.find? (fun x => x.id == id)) = some b from hb]
    rfl
  · intro db id userId now b hb hcat
    unfold checklistHandler
    rw [show (if falloEquipos.brigadaRead then none
        else db.brigadas.find? (fun x => x.id == id)) = some b from hb]
    have hdec : decide (0 < db.catalogo_equipos_ifn.length) = true :=
      decide_eq_true (by
        cases hc : db.catalogo_equipos_ifn
        · exact absurd hc hcat
        · simp [hc])
    simp [falloEquipos, hdec]
  · intro db id userId now b hb
    unfold checklistHandler
    rw [show (if fallosRoles.brigadaRead then none
        else db.brigadas.find? (fun x => x.id == id)) = some b from hb]
    rfl
  · intro db id userId now b hb hcat
    unfold checklistHandler
    rw [show (if falloEquipos.brigadaRead then none
        else db.brigadas.find? (fun x => x.id == id)) = some b from hb]
    rw [hcat]
    rfl

/-- C2 amended witness: the five cases at the demo stores. -/
theorem claim2_abort_amended_witness :
    (checklistHandler dbDemo falloBrigada "b1" none 0).response = .notFound
    ∧ (checklistHandler dbDemo falloCatalogo "b1" none 0).response = .serverError
    ∧ (checklistHandler dbDemo falloEquipos "b1" none 0).response = .serverError
    ∧ isOk (checklistHandler dbDemo fallosRoles "b1" none 0).response = true
    ∧ isOk (checklistHandler dbCatVacio falloEquipos "b1" none 0).response
      = true :=
  ⟨claim2_abort_amended.1 dbDemo falloBrigada "b1" none 0 rfl,
   claim2_abort_amended.2.1 dbDemo "b1" none 0 brigadaUno rfl,
   claim2_abort_amended.2.2.1 dbDemo "b1" none 0 brigadaUno rfl (by decide),
   claim2_abort_amended.2.2.2.1 dbDemo "b1" none 0 brigadaUno rfl,
   claim2_abort_amended.2.2.2.2 dbCatVacio "b1" none 0 brigadaUno rfl rfl⟩

/-- C3 counterexample: when the final audit upsert fails, the
evaluation is still reported successful, but nothing at all is logged
and the store is left unchanged — the failure is silently discarded,
contradicting the claim that it is surfaced to an operator. -/
theorem claim3_upsert_counterexample :
    isOk (checklistHandler dbDemo falloUpsert "b1" none 0).response = true
    ∧ (checklistHandler dbDemo falloUpsert "b1" none 0).logs = []
    ∧ (checklistHandler dbDemo falloUpsert "b1" none 0).db = dbDemo := by
  refine ⟨rfl, rfl, rfl⟩

/-- C3 amended: a failed ValidationRecord upsert never fails the
evaluation — the computed checklist is still returned — but the
persistence failure is silently discarded: the handler inspects neither
the upsert result nor logs anything, and the audit table keeps its old
content. -/
theorem claim3_upsert_amended (db : DB) (id : String) (userId : Option String)
    (now : Nat) (b : Brigada)
    (hb : db.brigadas.find? (fun x => x.id == id) = some b) :
    isOk (checklistHandler db falloUpsert id userId now).response = true
    ∧ (checklistHandler db falloUpsert id userId now).logs = []
    ∧ (checklistHandler db falloUpsert id userId now).db = db := by
  rw [checklistHandler_upsertFail_found db id userId now b hb]
  exact ⟨rfl, rfl, rfl⟩

/-- C3 amended witness: demo store, brigade b1. -/
theorem claim3_upsert_amended_witness :
    isOk (checklistHandler dbDemo falloUpsert "b1" (some "admin") 7).response = true
    ∧ (checklistHandler dbDemo falloUpsert "b1" (some "admin") 7).logs = []
    ∧ (checklistHandler dbDemo falloUpsert "b1" (some "admin") 7).db = dbDemo :=
  claim3_upsert_amended dbDemo "b1" (some "admin") 7 brigadaUno rfl


/-- C4 counterexample: POST `/brigadas/conformar` also writes the
`validaciones_conformacion` table — it is not written exclusively by
the checklist evaluator — and the row it writes carries no equipment
boolean at all (a partial record). -/
theorem claim4_conformar_counterexample :
    (conformarHandler dbDemo (some "Beta") (some "u1") (some "u2") (some "u3")
      ["u4", "u5"] (some "admin") "b9").db.validaciones_conformacion
      ≠ dbDemo.validaciones_conformacion
    ∧ ((conformarHandler dbDemo (some "Beta") (some "u1") (some "u2") (some "u3")
      ["u4", "u5"] (some "admin") "b9").db.validaciones_conformacion.map
        (fun v => v.equipos_completos)) = [none] := by
  refine ⟨by decide, rfl⟩

/-- C4 amended: the `validaciones_conformacion` row of a brigade is
written by two operations.  The checklist evaluator upserts, in one
write, the full boolean snapshot of its evaluation — afterwards every
row carrying the brigade key equals that snapshot.  POST
`/brigadas/conformar` additionally appends a partial record with
hard-coded staffing flags and no equipment or training booleans. -/
theorem claim4_validacion_amended :
    (∀ (db : DB) (id : String) (userId : Option String) (now : Nat) (b : Brigada),
      db.brigadas.find? (fun x => x.id == id) = some b →
      (checklistHandler db noFailures id userId now).response
        = .ok (checklistDe db id b)
      ∧ snapshotRow (checklistDe db id b) id userId now
          ∈ (checklistHandler db noFailures id userId now).db.validaciones_conformacion
      ∧ ∀ w ∈ (checklistHandler db noFailures id userId
          now).db.validaciones_conformacion,
          w.brigada_id = id → w = snapshotRow (checklistDe db id b) id userId now)
    ∧ (∀ (db : DB) (nombre jefe_id botanico_id tecnico_id : Option String)
        (coinvestigadores_ids : List String) (userId : Option String)
        (newId : String),
      falsyStr jefe_id = false → falsyStr botanico_id = false →
      falsyStr tecnico_id = false → 2 ≤ coinvestigadores_ids.length →
      (conformarHandler db nombre jefe_id botanico_id tecnico_id
        coinvestigadores_ids userId newId).db.validaciones_conformacion
        = db.validaciones_conformacion
          ++ [conformarRow coinvestigadores_ids userId newId]
      ∧ (conformarRow coinvestigadores_ids userId newId).equipos_completos = none
      ∧ (conformarRow coinvestigadores_ids userId newId).capacitacion_completada
        = none) := by
  constructor
  · intro db id userId now b hb
    rw [checklistHandler_noFailures_found db id userId now b hb]
    refine ⟨rfl, ?_, ?_⟩
    · show snapshotRow (checklistDe db id b) id userId now
        ∈ upsertValidacion db.validaciones_conformacion
            (snapshotRow (checklistDe db id b) id userId now)
      exact mem_upsertValidacion _ _
    · intro w hw hkey
      exact upsertValidacion_eq_of_clave db.validaciones_conformacion _ w hw hkey
  · intro db nombre jefe_id botanico_id tecnico_id coinvestigadores_ids userId
      newId hj hbo hte hco
    unfold conformarHandler
    have hdec : decide (coinvestigadores_ids.length < 2) = false :=
      decide_eq_false (by omega)
    rw [hj, hbo, hte, hdec]
    exact ⟨rfl, rfl, rfl⟩

/-- C4 amended witness: both writers at concrete inputs. -/
theorem claim4_validacion_amended_witness :
    ((checklistHandler dbDemo noFailures "b1" (some "admin") 7).response
      = .ok (checklistDe dbDemo "b1" brigadaUno)
    ∧ snapshotRow (checklistDe dbDemo "b1" brigadaUno) "b1" (some "admin") 7
        ∈ (checklistHandler dbDemo noFailures "b1" (some "admin")
            7).db.validaciones_conformacion)
    ∧ (conformarHandler dbDemo (some "Beta") (some "u1") (some "u2") (some "u3")
        ["u4", "u5"] (some "admin") "b9").db.validaciones_conformacion
      = dbDemo.validaciones_conformacion
        ++ [conformarRow ["u4", "u5"] (some "admin") "b9"] :=
  ⟨⟨(claim4_validacion_amended.1 dbDemo "b1" (some "admin") 7 brigadaUno rfl).1,
    (claim4_validacion_amended.1 dbDemo "b1" (some "admin") 7 brigadaUno rfl).2.1⟩,
   (claim4_validacion_amended.2 dbDemo (some "Beta") (some "u1") (some "u2")
     (some "u3") ["u4", "u5"] (some "admin") "b9" rfl rfl rfl (by decide)).1⟩

/-- C5: a brigade with zero team-lead assignments always fails
`cumple_minimo` with the team-lead error first in the list; a brigade
with no role assignments, no equipment (against a non-empty catalog)
and incomplete training gets exactly the five blocking errors in the
fixed order team lead, botanist, technician, co-investigators,
equipment, plus exactly one warning, with the pending actions in that
same order (the training action last). -/
theorem claim5_errores_orden :
    (∀ (db : DB) (id : String) (userId : Option String) (now : Nat) (c : Checklist),
      (checklistHandler db noFailures id userId now).response = .ok c →
      countRole db id "jefe_brigada" = 0 →
      c.cumple_minimo = false ∧
        c.errores.head? = some "❌ Falta asignar JEFE DE BRIGADA")
    ∧ (∀ (db : DB) (id : String) (userId : Option String) (now : Nat)
        (c : Checklist) (b : Brigada),
      db.brigadas.find? (fun x => x.id == id) = some b →
      b.capacitacion_completada.getD false = false →
      db.brigada_brigadistas.filter (fun r => r.brigada_id == id) = [] →
      equiposDe db id = [] →
      db.catalogo_equipos_ifn ≠ [] →
      (checklistHandler db noFailures id userId now).response = .ok c →
      c.cumple_minimo = false ∧ c.estado_conformacion = "en_progreso" ∧
      c.errores = ["❌ Falta asignar JEFE DE BRIGADA", "❌ Falta asignar BOTÁNICO",
        "❌ Falta asignar TÉCNICO AUXILIAR", coinvError 0,
        equiposError db.catalogo_equipos_ifn] ∧
      c.advertencias = [advertenciaCapacitacion] ∧
      c.acciones_pendientes.map Accion.paso = [1, 2, 3, 4, 5, 6]) := by
  constructor
  · intro db id userId now c h h0
    cases hb : db.brigadas.find? (fun x => x.id == id) with
    | none =>
      rw [checklistHandler_noFailures_notFound db id userId now hb] at h
      cases h
    | some b =>
      rw [checklistHandler_noFailures_found db id userId now b hb] at h
      replace h : Response.ok (checklistDe db id b) = Response.ok c := h
      injection h with h
      subst h
      unfold checklistDe
      rw [countRole_zero_rows db id "jefe_brigada" h0]
      exact ⟨rfl, rfl⟩
  · intro db id userId now c b hb hcap hroles hequip hcat h
    rw [checklistHandler_noFailures_found db id userId now b hb] at h
    replace h : Response.ok (checklistDe db id b) = Response.ok c := h
    injection h with h
    subst h
    unfold checklistDe
    rw [rowsConRol_eq_nil db id "jefe_brigada" hroles,
      rowsConRol_eq_nil db id "botanico" hroles,
      rowsConRol_eq_nil db id "tecnico_auxiliar" hroles,
      rowsConRol_eq_nil db id "coinvestigador" hroles, hequip, hcap]
    exact buildChecklist_vacio id b.nombre db.catalogo_equipos_ifn hcat

/-- C5 witness: the demo store (empty brigade, two-item catalog,
training incomplete). -/
theorem claim5_errores_orden_witness :
    ((demoChecklist1.cumple_minimo = false ∧
      demoChecklist1.errores.head? = some "❌ Falta asignar JEFE DE BRIGADA")
    ∧ (demoChecklist1.cumple_minimo = false ∧
      demoChecklist1.estado_conformacion = "en_progreso" ∧
      demoChecklist1.errores = ["❌ Falta asignar JEFE DE BRIGADA",
        "❌ Falta asignar BOTÁNICO", "❌ Falta asignar TÉCNICO AUXILIAR",
        coinvError 0, equiposError dbDemo.catalogo_equipos_ifn] ∧
      demoChecklist1.advertencias = [advertenciaCapacitacion] ∧
      demoChecklist1.acciones_pendientes.map Accion.paso = [1, 2, 3, 4, 5, 6])) :=
  ⟨claim5_errores_orden.1 dbDemo "b1" (some "admin") 7 demoChecklist1 rfl rfl,
   claim5_errores_orden.2 dbDemo "b1" (some "admin") 7 demoChecklist1 brigadaUno
     rfl rfl rfl rfl (by decide) rfl⟩

/-- C9: role assignment is an idempotent upsert on the key
`(brigada_id, usuario_id)`: assigning the same valid role twice leaves
exactly one row with that role for the key, and assigning a different
valid role overwrites that row instead of adding a second one. -/
theorem claim9_upsert_rol (db : DB) (id uid rol rol2 : String) (t1 t2 : Nat)
    (hrol : rolesValidos.contains rol = true)
    (hrol2 : rolesValidos.contains rol2 = true)
    (hb : (db.brigadas.find? (fun x => x.id == id)).isSome = true)
    (hu : db.usuarios.contains uid = true)
    (hkey : (rowsParaClave db.brigada_brigadistas id uid).length ≤ 1) :
    rowsParaClave ((asignarRolHandler db id (some uid) (some rol)
        t1).db).brigada_brigadistas id uid = [⟨id, uid, rol, t1⟩]
    ∧ rowsParaClave ((asignarRolHandler (asignarRolHandler db id (some uid)
        (some rol) t1).db id (some uid) (some rol) t2).db).brigada_brigadistas
        id uid = [⟨id, uid, rol, t2⟩]
    ∧ rowsParaClave ((asignarRolHandler (asignarRolHandler db id (some uid)
        (some rol) t1).db id (some uid) (some rol2) t2).db).brigada_brigadistas
        id uid = [⟨id, uid, rol2, t2⟩] := by
  have hred1 := asignarRolHandler_ok db id uid rol t1 hrol hb hu
  have hkeyAfter : (rowsParaClave (upsertRole db.brigada_brigadistas
      ⟨id, uid, rol, t1⟩) id uid).length ≤ 1 := by
    rw [upsertRole_clave db.brigada_brigadistas ⟨id, uid, rol, t1⟩ hkey]
    simp
  refine ⟨?_, ?_, ?_⟩
  · rw [hred1]
    exact upsertRole_clave db.brigada_brigadistas ⟨id, uid, rol, t1⟩ hkey
  · rw [hred1]
    rw [asignarRolHandler_ok (dbTrasRol db ⟨id, uid, rol, t1⟩) id uid rol t2 hrol hb hu]
    exact upsertRole_clave _ ⟨id, uid, rol, t2⟩ hkeyAfter
  · rw [hred1]
    rw [asignarRolHandler_ok (dbTrasRol db ⟨id, uid, rol, t1⟩) id uid rol2 t2 hrol2 hb hu]
    exact upsertRole_clave _ ⟨id, uid, rol2, t2⟩ hkeyAfter

/-- C9 witness: assigning twice on the demo store. -/
theorem claim9_upsert_rol_witness :
    (rolesValidos.contains "jefe_brigada" = true
      ∧ rolesValidos.contains "botanico" = true
      ∧ (dbDemo.brigadas.find? (fun x => x.id == "b1")).isSome = true
      ∧ dbDemo.usuarios.contains "u1" = true
      ∧ (rowsParaClave dbDemo.brigada_brigadistas "b1" "u1").length ≤ 1)
    ∧ (rowsParaClave ((asignarRolHandler dbDemo "b1" (some "u1")
        (some "jefe_brigada") 3).db).brigada_brigadistas "b1" "u1"
        = [⟨"b1", "u1", "jefe_brigada", 3⟩]
      ∧ rowsParaClave ((asignarRolHandler (asignarRolHandler dbDemo "b1"
          (some "u1") (some "jefe_brigada") 3).db "b1" (some "u1")
          (some "jefe_brigada") 4).db).brigada_brigadistas "b1" "u1"
        = [⟨"b1", "u1", "jefe_brigada", 4⟩]
      ∧ rowsParaClave ((asignarRolHandler (asignarRolHandler dbDemo "b1"
          (some "u1") (some "jefe_brigada") 3).db "b1" (some "u1")
          (some "botanico") 4).db).brigada_brigadistas "b1" "u1"
        = [⟨"b1", "u1", "botanico", 4⟩]) :=
  ⟨⟨by decide, by decide, by decide, by decide, by decide⟩,
   claim9_upsert_rol dbDemo "b1" "u1" "jefe_brigada" "botanico" 3 4 (by decide)
     (by decide) (by decide) (by decide) (by decide)⟩

/-- C10: evaluating an unknown brigade id returns the 404 not-found
response after the single brigade-row read: no further store reads are
issued, nothing is logged and every table — the validation records
included — is left exactly as it was. -/
theorem claim10_no_encontrada (db : DB) (id : String) (userId : Option String)
    (now : Nat) (h : db.brigadas.find? (fun x => x.id == id) = none) :
    checklistHandler db noFailures id userId now =
      { response := .notFound, db := db, reads := [.brigadaRow id], logs := [] } :=
  checklistHandler_noFailures_notFound db id userId now h

/-- C10 witness: the demo store has no brigade called nope. -/
theorem claim10_no_encontrada_witness :
    dbDemo.brigadas.find? (fun x => x.id == "nope") = none ∧
    checklistHandler dbDemo noFailures "nope" none 0 =
      { response := .notFound, db := dbDemo, reads := [.brigadaRow "nope"],
        logs := [] } :=
  ⟨rfl, claim10_no_encontrada dbDemo "nope" none 0 rfl⟩

end BrigadaIfn
